import Mathlib

/-!
Shallow embedding of `src/ev_site_feasibility_app.py` (EETNick/SiteFeasibility).

The source file in the repository is a merge of two revisions with diff
artifacts left in the text; the embedding follows the effective final
revision: where a constant is assigned twice the later assignment wins
(`TEMP_RANGE = (-25, 45)`), and code on lines that are unreachable after a
`return` in the later revision is ignored.

Every external collaborator response is modelled as an explicit input in a
`Readings` record: a `none` entry stands for the corresponding network call
failing (an exception caught by the `try/except` of the check, a non-ok
response, or a missing field that aborts the computation), and `some x`
stands for the call resolving with payload `x`.  Numeric values (latitudes,
longitudes, elevations, temperatures, the seismic `Ss` parameter, the
population density) are modelled as rationals.
-/

namespace SiteFeasibility

/-- `POP_DENSITY_THRESHOLD = 1000` (line 8 of the source). -/
def POP_DENSITY_THRESHOLD : ℚ := 1000

/-- `ROAD_DISTANCE_THRESHOLD = 0.5  # km` (line 9); only interpolated into the
Overpass query string, never compared against locally. -/
def ROAD_DISTANCE_THRESHOLD : ℚ := 1 / 2

/-- `MAX_ELEVATION_M = 2400` (line 10). -/
def MAX_ELEVATION_M : ℚ := 2400

/-- `TEMP_RANGE`: assigned `(-20, 50)` then immediately reassigned
`(-25, 45)` (lines 11-12); the later assignment is the effective value. -/
def TEMP_RANGE : ℚ × ℚ := (-25, 45)

/-- The resolved responses of the external collaborators for one evaluation.
`geocode` is the result of `geocode_address` (the function returns
`(None, None)` when the geocoder finds nothing, modelled as `none`).
`roadElements` is the number of elements in the Overpass JSON answer,
`elevation` the Open-Meteo elevation field, `climateAnnual` the climate API
annual record as optional min / optional max, `floodFeatures` the number of
FEMA features, `seismicSs` the USGS `ss` value. -/
structure Readings where
  geocode : Option (ℚ × ℚ)
  roadElements : Option Nat
  elevation : Option ℚ
  climateAnnual : Option (Option ℚ × Option ℚ)
  floodFeatures : Option Nat
  seismicSs : Option ℚ
deriving Repr, DecidableEq

/-- `is_near_major_roads`: returns `len(data.get("elements", [])) > 0`; any
exception is caught and the function returns `False` (lines 24-37). -/
def is_near_major_roads (roadElements : Option Nat) : Bool :=
  match roadElements with
  | some n => decide (0 < n)
  | none => false

/-- `estimate_population_density` (lines 39-44): the deterministic fallback
stub, `3000` inside the box `33 <= lat <= 38 and -120 <= lon <= -117`,
otherwise `500`. -/
def estimate_population_density (lat lon : ℚ) : ℚ :=
  if 33 ≤ lat ∧ lat ≤ 38 ∧ -120 ≤ lon ∧ lon ≤ -117 then 3000 else 500

/-- Python `address.lower()`, modelled on the character list of the string
(ASCII case mapping, which covers the keyword alphabet). -/
def lowerChars (address : String) : List Char :=
  address.data.map Char.toLower

/-- `is_zoning_compatible` (lines 46-47):
`"commercial" in address.lower() or "industrial" in address.lower()`,
Python substring containment modelled as list-of-characters infix. -/
def is_zoning_compatible (address : String) : Bool :=
  decide ("commercial".data <:+: lowerChars address) ||
  decide ("industrial".data <:+: lowerChars address)

/-- `is_utility_available` (lines 49-50): constant `True` stub, ignoring its
`lat, lon` arguments. -/
def is_utility_available (_lat _lon : ℚ) : Bool := true

/-- `get_elevation` (lines 54-68): returns `data.get("elevation")` on
success (which may itself be `None`, folded into the `none` case here) and
`None` on any exception. The reading is passed in, so this is the identity
on the modelled response. -/
def get_elevation (elevation : Option ℚ) : Option ℚ := elevation

/-- Python `x or d` for an optional number `x`: `None` and `0` are falsy and
yield the default `d`. Used for `get_elevation(lat, lon) or 1000`. -/
def pyOrDefault (x : Option ℚ) (d : ℚ) : ℚ :=
  match x with
  | some v => if v = 0 then d else v
  | none => d

/-- `is_within_temp_range` (lines 70-86, the effective climate-API revision):
on an ok response, `avg_min = annual.get('min', -50)` and
`avg_max = annual.get('max', 60)`, returning
`TEMP_RANGE[0] <= avg_min and avg_max <= TEMP_RANGE[1]`; any exception or
non-ok response yields `False`. (The constant-stub lines 88-92 are
unreachable after the `return False`.) -/
def is_within_temp_range (climateAnnual : Option (Option ℚ × Option ℚ)) : Bool :=
  match climateAnnual with
  | some annual =>
    let avg_min := annual.1.getD (-50)
    let avg_max := annual.2.getD 60
    decide (TEMP_RANGE.1 ≤ avg_min) && decide (avg_max ≤ TEMP_RANGE.2)
  | none => false

/-- `is_in_flood_zone` (lines 94-108): `len(data.get("features", [])) > 0`,
any exception yields `False` (assume not in flood zone on error). -/
def is_in_flood_zone (floodFeatures : Option Nat) : Bool :=
  match floodFeatures with
  | some n => decide (0 < n)
  | none => false

/-- `is_in_high_seismic_zone` (lines 110-134): `ss > 1.0` on success, any
exception yields `False`. -/
def is_in_high_seismic_zone (seismicSs : Option ℚ) : Bool :=
  match seismicSs with
  | some ss => decide (ss > 1)
  | none => false

/-- The record returned by `check_site_feasibility` when the address
resolves (lines 161-174 of the source). -/
structure FeasibilityVerdict where
  latitude : ℚ
  longitude : ℚ
  near_major_roads : Bool
  population_density : ℚ
  zoning_compatible : Bool
  utility_available : Bool
  elevation_m : ℚ
  elevation_ok : Bool
  temperature_range_ok : Bool
  in_flood_zone : Bool
  in_high_seismic_zone : Bool
  feasible : Bool
deriving Repr, DecidableEq

/-- Result of one evaluation. `verdict` is the full dictionary of
lines 161-174. Modelled from the spec: the `unresolved` arm stands for the
early return when geocoding fails — the literal `return` statement falls in
a diff-elided region of the source (after line 137), but the UI caller
(lines 185-186) tests `if "status" in results` and the spec requires a
distinct "address could not be resolved" result carrying no `feasible`
flag. -/
inductive EvalResult where
  | unresolved : EvalResult
  | verdict : FeasibilityVerdict → EvalResult
deriving Repr, DecidableEq

/-- `check_site_feasibility` (lines 136-174): geocode, short-circuit when
unresolved, otherwise evaluate every check on the resolved readings and
combine with `all([...])`. -/
def check_site_feasibility (address : String) (r : Readings) : EvalResult :=
  match r.geocode with
  | none => EvalResult.unresolved
  | some (lat, lon) =>
    let near_roads := is_near_major_roads r.roadElements
    let pop_density := estimate_population_density lat lon
    let zoning_ok := is_zoning_compatible address
    let utility_ok := is_utility_available lat lon
    let elevation := pyOrDefault (get_elevation r.elevation) 1000
    let elevation_ok := decide (elevation < MAX_ELEVATION_M)
    let temp_ok := is_within_temp_range r.climateAnnual
    let flood_zone := is_in_flood_zone r.floodFeatures
    let seismic_risk := is_in_high_seismic_zone r.seismicSs
    let feasible := near_roads &&
      decide (pop_density > POP_DENSITY_THRESHOLD) &&
      zoning_ok && utility_ok && elevation_ok && temp_ok &&
      !flood_zone && !seismic_risk
    EvalResult.verdict
      { latitude := lat
        longitude := lon
        near_major_roads := near_roads
        population_density := pop_density
        zoning_compatible := zoning_ok
        utility_available := utility_ok
        elevation_m := elevation
        elevation_ok := elevation_ok
        temperature_range_ok := temp_ok
        in_flood_zone := flood_zone
        in_high_seismic_zone := seismic_risk
        feasible := feasible }

/-! Concrete readings and verdicts used by witnesses and counterexamples. -/

/-- Readings with the geocoder failing and every collaborator unavailable. -/
def rNone : Readings := ⟨none, none, none, none, none, none⟩

/-- Readings resolved at `(0, 0)` with every other collaborator unavailable. -/
def rEx1 : Readings := ⟨some (0, 0), none, none, none, none, none⟩

/-- The verdict the evaluator computes on `rEx1` with an address matching no
zoning keyword. -/
def vEx1 : FeasibilityVerdict :=
  ⟨0, 0, false, 500, false, true, 1000, true, false, false, false, false⟩

/-- Readings resolved at the heat-box boundary `(33, -118)` with a
successfully resolved climate reading of annual mean min 0, max 25. -/
def rHeat : Readings := ⟨some (33, -118), none, none, some (some 0, some 25), none, none⟩

/-- The verdict the evaluator computes on `rHeat` with address `"x"`. -/
def vHeat : FeasibilityVerdict :=
  ⟨33, -118, false, 3000, false, true, 1000, true, true, false, false, false⟩

/-- Readings resolved at `(0, 0)` with a measured elevation of exactly
2400 m. -/
def rElev : Readings := ⟨some (0, 0), none, some 2400, none, none, none⟩

/-- The verdict the evaluator computes on `rElev` with address `"x"`. -/
def vElev : FeasibilityVerdict :=
  ⟨0, 0, false, 500, false, true, 2400, false, false, false, false, false⟩

/-- Readings resolved at `(0, 0)` with a measured elevation of exactly 0 m
(a genuine sea-level reading). -/
def rSea : Readings := ⟨some (0, 0), none, some 0, none, none, none⟩

/-- Readings resolved at `(34, -118)` (inside the population stub box). -/
def rPop : Readings := ⟨some (34, -118), none, none, none, none, none⟩

/-- The verdict the evaluator computes on `rPop` with address `"x"`. -/
def vPop : FeasibilityVerdict :=
  ⟨34, -118, false, 3000, false, true, 1000, true, false, false, false, false⟩

/-! Shared helper lemmas. -/

/-- When geocoding fails the evaluator short-circuits. -/
theorem check_site_feasibility_none (address : String) (r : Readings)
    (h : r.geocode = none) :
    check_site_feasibility address r = EvalResult.unresolved := by
  unfold check_site_feasibility
  rw [h]

/-- When geocoding resolves, the evaluator returns the fully evaluated
verdict record. -/
theorem check_site_feasibility_some (address : String) (r : Readings)
    (lat lon : ℚ) (h : r.geocode = some (lat, lon)) :
    check_site_feasibility address r = EvalResult.verdict
      { latitude := lat
        longitude := lon
        near_major_roads := is_near_major_roads r.roadElements
        population_density := estimate_population_density lat lon
        zoning_compatible := is_zoning_compatible address
        utility_available := is_utility_available lat lon
        elevation_m := pyOrDefault (get_elevation r.elevation) 1000
        elevation_ok := decide (pyOrDefault (get_elevation r.elevation) 1000 < MAX_ELEVATION_M)
        temperature_range_ok := is_within_temp_range r.climateAnnual
        in_flood_zone := is_in_flood_zone r.floodFeatures
        in_high_seismic_zone := is_in_high_seismic_zone r.seismicSs
        feasible := is_near_major_roads r.roadElements &&
          decide (estimate_population_density lat lon > POP_DENSITY_THRESHOLD) &&
          is_zoning_compatible address && is_utility_available lat lon &&
          decide (pyOrDefault (get_elevation r.elevation) 1000 < MAX_ELEVATION_M) &&
          is_within_temp_range r.climateAnnual &&
          !is_in_flood_zone r.floodFeatures &&
          !is_in_high_seismic_zone r.seismicSs } := by
  unfold check_site_feasibility
  rw [h]

/-! Claim theorems. -/

/-- Claim C1: for every resolved evaluation, the overall `feasible` flag is
exactly the conjunction of the eight in-profile pass flags (near roads,
population density above threshold, zoning, utility, elevation, temperature,
not in flood zone, not in high seismic zone); hence all checks passing gives
`feasible = true` and any single failing check gives `feasible = false`. -/
theorem C1_feasible_is_conjunction (address : String) (r : Readings)
    (v : FeasibilityVerdict)
    (h : check_site_feasibility address r = EvalResult.verdict v) :
    v.feasible = (v.near_major_roads &&
      decide (v.population_density > POP_DENSITY_THRESHOLD) &&
      v.zoning_compatible && v.utility_available && v.elevation_ok &&
      v.temperature_range_ok && !v.in_flood_zone &&
      !v.in_high_seismic_zone) := by
  rcases hg : r.geocode with _ | ⟨lat, lon⟩
  · rw [check_site_feasibility_none address r hg] at h
    exact (EvalResult.noConfusion h)
  · rw [check_site_feasibility_some address r lat lon hg] at h
    injection h with h
    subst h
    rfl

/-- Witness for C1 at a concrete input. -/
theorem C1_feasible_is_conjunction_witness :
    check_site_feasibility "1 Example Way" rEx1 = EvalResult.verdict vEx1 ∧
    vEx1.feasible = (vEx1.near_major_roads &&
      decide (vEx1.population_density > POP_DENSITY_THRESHOLD) &&
      vEx1.zoning_compatible && vEx1.utility_available && vEx1.elevation_ok &&
      vEx1.temperature_range_ok && !vEx1.in_flood_zone &&
      !vEx1.in_high_seismic_zone) :=
  ⟨by decide, C1_feasible_is_conjunction "1 Example Way" rEx1 vEx1 (by decide)⟩

/-- Counterexample to claim C2: at the boundary coordinate `(33, -118)` —
inside the alleged high-heat box — a resolved climate reading with annual
mean min 0 and max 25 makes `temperature_range_ok = true`, and an
unavailable climate reading makes the check `false`, so the check depends on
the network reading and is not a bounding-box test of the coordinate. -/
theorem C2_counterexample :
    check_site_feasibility "x" rHeat = EvalResult.verdict vHeat ∧
    vHeat.latitude = 33 ∧ vHeat.longitude = -118 ∧
    vHeat.temperature_range_ok = true ∧
    is_within_temp_range none = false :=
  ⟨by decide, by decide, by decide, by decide, by decide⟩

/-- Claim C2 (amended): the temperature check is the climate-API strategy —
with a resolved annual record carrying both fields it passes iff
`-25 ≤ min` and `max ≤ 45`; a missing min or max field falls back to
`-50` / `60` and fails; an unavailable response fails. -/
theorem C2_climate_api_strategy (mn mx : ℚ) :
    (is_within_temp_range (some (some mn, some mx)) = true ↔
      (-25 ≤ mn ∧ mx ≤ 45)) ∧
    is_within_temp_range (some (none, some mx)) = false ∧
    is_within_temp_range (some (some mn, none)) = false ∧
    is_within_temp_range none = false := by
  refine ⟨?_, ?_, ?_, rfl⟩
  · simp [is_within_temp_range, TEMP_RANGE]
  · simp [is_within_temp_range, TEMP_RANGE]
    norm_num
  · simp [is_within_temp_range, TEMP_RANGE]
    norm_num

/-- Claim C3: in every resolved evaluation, `elevation_ok` holds iff the
effective elevation reading is strictly below `MAX_ELEVATION_M = 2400`; a
reading of exactly 2400 m fails, and an unavailable reading (replaced by
1000 m) passes. -/
theorem C3_elevation_strict_threshold (address : String) (r : Readings)
    (v : FeasibilityVerdict)
    (h : check_site_feasibility address r = EvalResult.verdict v) :
    (∀ e : ℚ, r.elevation = some e →
      (v.elevation_ok = true ↔ e < MAX_ELEVATION_M)) ∧
    (r.elevation = some MAX_ELEVATION_M → v.elevation_ok = false) ∧
    (r.elevation = none → v.elevation_ok = true) := by
  rcases hg : r.geocode with _ | ⟨lat, lon⟩
  · rw [check_site_feasibility_none address r hg] at h
    exact (EvalResult.noConfusion h)
  · rw [check_site_feasibility_some address r lat lon hg] at h
    injection h with h
    subst h
    refine ⟨?_, ?_, ?_⟩
    · intro e he
      by_cases h0 : e = 0
      · subst h0
        simp [he, get_elevation, pyOrDefault, MAX_ELEVATION_M]
        norm_num
      · simp [he, get_elevation, pyOrDefault, h0]
    · intro he
      simp [he, get_elevation, pyOrDefault, MAX_ELEVATION_M]
    · intro he
      simp [he, get_elevation, pyOrDefault, MAX_ELEVATION_M]
      norm_num

/-- Witness for C3 at a concrete input: a measured 2400 m reading fails. -/
theorem C3_elevation_strict_threshold_witness :
    check_site_feasibility "x" rElev = EvalResult.verdict vElev ∧
    vElev.elevation_ok = false :=
  ⟨by decide, (C3_elevation_strict_threshold "x" rElev vElev (by decide)).2.1 rfl⟩

/-- Claim C4: the high-seismic flag holds iff the resolved `Ss` parameter is
strictly greater than 1; `Ss = 1` exactly is not flagged, and an unavailable
reading is not flagged. -/
theorem C4_seismic_strict_greater (ssv : ℚ) :
    (is_in_high_seismic_zone (some ssv) = true ↔ 1 < ssv) ∧
    is_in_high_seismic_zone (some 1) = false ∧
    is_in_high_seismic_zone none = false := by
  refine ⟨?_, by decide, rfl⟩
  simp [is_in_high_seismic_zone]

/-- Claim C5: when the geocoder cannot resolve the address, the evaluation
returns the distinct `unresolved` result, which is never equal to a
`verdict` (so it carries no `feasible` flag). -/
theorem C5_unresolved_short_circuit (address : String) (r : Readings)
    (h : r.geocode = none) :
    check_site_feasibility address r = EvalResult.unresolved ∧
    ∀ v : FeasibilityVerdict,
      check_site_feasibility address r ≠ EvalResult.verdict v := by
  have h1 : check_site_feasibility address r = EvalResult.unresolved :=
    check_site_feasibility_none address r h
  refine ⟨h1, fun v hv => ?_⟩
  rw [h1] at hv
  exact EvalResult.noConfusion hv

/-- Witness for C5 at a concrete input. -/
theorem C5_unresolved_short_circuit_witness :
    check_site_feasibility "No Such Place" rNone = EvalResult.unresolved ∧
    check_site_feasibility "No Such Place" rNone ≠ EvalResult.verdict vEx1 :=
  ⟨(C5_unresolved_short_circuit "No Such Place" rNone rfl).1,
   (C5_unresolved_short_circuit "No Such Place" rNone rfl).2 vEx1⟩

/-- Claim C6: once a coordinate is resolved the evaluation always returns a
verdict, whatever the collaborator readings; an unavailable flood reading
is treated as not in a flood zone (passes) and an unavailable road reading
as not near roads (fails). -/
theorem C6_collaborator_failure_not_fatal (address : String) (r : Readings)
    (lat lon : ℚ) (h : r.geocode = some (lat, lon)) :
    (∃ v, check_site_feasibility address r = EvalResult.verdict v) ∧
    is_in_flood_zone none = false ∧
    is_near_major_roads none = false :=
  ⟨⟨_, check_site_feasibility_some address r lat lon h⟩, rfl, rfl⟩

/-- Witness for C6 at a concrete input. -/
theorem C6_collaborator_failure_not_fatal_witness :
    (∃ v, check_site_feasibility "x" rEx1 = EvalResult.verdict v) ∧
    is_in_flood_zone none = false ∧
    is_near_major_roads none = false :=
  C6_collaborator_failure_not_fatal "x" rEx1 0 0 rfl

/-- Claim C7: the population-density estimator is the deterministic stub —
3000 inside the box `lat ∈ [33, 38]`, `lon ∈ [-120, -117]` and 500
elsewhere — the verdict records its value, and feasibility requires the
density to be strictly greater than the threshold 1000. -/
theorem C7_population_density_stub (address : String) (r : Readings)
    (lat lon : ℚ) (v : FeasibilityVerdict)
    (h : r.geocode = some (lat, lon))
    (hv : check_site_feasibility address r = EvalResult.verdict v) :
    (estimate_population_density lat lon =
      if 33 ≤ lat ∧ lat ≤ 38 ∧ -120 ≤ lon ∧ lon ≤ -117 then 3000 else 500) ∧
    v.population_density = estimate_population_density lat lon ∧
    (v.feasible = true → POP_DENSITY_THRESHOLD < v.population_density) := by
  rw [check_site_feasibility_some address r lat lon h] at hv
  injection hv with hv
  subst hv
  refine ⟨rfl, rfl, fun hf => ?_⟩
  simp only [Bool.and_eq_true, decide_eq_true_eq] at hf
  exact hf.1.1.1.1.1.1.2

/-- Witness for C7 at a concrete input inside the stub box. -/
theorem C7_population_density_stub_witness :
    (estimate_population_density 34 (-118) =
      if (33 : ℚ) ≤ 34 ∧ (34 : ℚ) ≤ 38 ∧ (-120 : ℚ) ≤ -118 ∧ (-118 : ℚ) ≤ -117
      then 3000 else 500) ∧
    vPop.population_density = estimate_population_density 34 (-118) ∧
    (vPop.feasible = true → POP_DENSITY_THRESHOLD < vPop.population_density) :=
  C7_population_density_stub "x" rPop 34 (-118) vPop rfl (by decide)

/-- Claim C8: zoning compatibility holds iff the lowercased address contains
"commercial" or "industrial" as a substring; in particular
"123 Main St, Commercial Park" is compatible and "123 Main St, Suburbia"
is not. -/
theorem C8_zoning_substring (address : String) :
    (is_zoning_compatible address = true ↔
      ("commercial".data <:+: lowerChars address ∨
       "industrial".data <:+: lowerChars address)) ∧
    is_zoning_compatible "123 Main St, Commercial Park" = true ∧
    is_zoning_compatible "123 Main St, Suburbia" = false := by
  refine ⟨?_, by decide, by decide⟩
  simp [is_zoning_compatible]

/-- Claim C9: the evaluation is deterministic — two evaluations with equal
addresses and equal resolved collaborator readings yield equal verdict
records (the embedding threads no other state). -/
theorem C9_deterministic (a1 a2 : String) (r1 r2 : Readings)
    (ha : a1 = a2) (hr : r1 = r2) :
    check_site_feasibility a1 r1 = check_site_feasibility a2 r2 := by
  rw [ha, hr]

/-- Witness for C9 at a concrete input. -/
theorem C9_deterministic_witness :
    check_site_feasibility "x" rHeat = check_site_feasibility "x" rHeat :=
  C9_deterministic "x" "x" rHeat rHeat rfl rfl

/-- Claim C10: a measured elevation of exactly 0 m is falsy in Python's
`or`, so it is replaced by the 1000 m default: the verdict reports
`elevation_m = 1000` and `elevation_ok = true`, identical to the verdict of
the same readings with the elevation collaborator unavailable. -/
theorem C10_zero_elevation_defaulted (address : String) (r : Readings)
    (lat lon : ℚ) (h : r.geocode = some (lat, lon))
    (he : r.elevation = some 0) :
    ∃ v, check_site_feasibility address r = EvalResult.verdict v ∧
      v.elevation_m = 1000 ∧ v.elevation_ok = true ∧
      check_site_feasibility address { r with elevation := none } =
        EvalResult.verdict v := by
  refine ⟨_, check_site_feasibility_some address r lat lon h, ?_, ?_, ?_⟩
  · simp [he, get_elevation, pyOrDefault]
  · simp [he, get_elevation, pyOrDefault, MAX_ELEVATION_M]
    norm_num
  · rw [check_site_feasibility_some address { r with elevation := none } lat lon h]
    simp [he, get_elevation, pyOrDefault]

/-- Witness for C10 at a concrete sea-level input. -/
theorem C10_zero_elevation_defaulted_witness :
    ∃ v, check_site_feasibility "x" rSea = EvalResult.verdict v ∧
      v.elevation_m = 1000 ∧ v.elevation_ok = true ∧
      check_site_feasibility "x" { rSea with elevation := none } =
        EvalResult.verdict v :=
  C10_zero_elevation_defaulted "x" rSea 0 0 rfl rfl

end SiteFeasibility
